import Mathlib

/-!
# Verification of the Little Forest eco-score tool

A shallow embedding in Lean 4 of `src/runEcoScore.js`, together with
theorems settling the specification claims about it.

Modelling conventions:
* JavaScript numbers are modelled as exact rationals (`ℚ`); `Math.round`
  becomes `jsRound` (floor of `x + 1/2`, which is how JS rounds ties).
* A possibly-NaN number (the first-contentful-paint duration) is modelled
  as `Option ℚ`, with `none` standing for NaN.
* External collaborators (the per-byte CO2 model, the per-domain pipeline
  as seen by the batch runner, the file reader) are parameters of the
  embedded functions.
* JavaScript strings are Lean `String`s; the handful of string primitives
  the source uses (startsWith, trim, split) are given executable
  definitions over `String.data`.
-/

/-- JavaScript `Math.round`, on exact rationals, as an integer:
floor of `x + 1/2` (JS rounds halves toward positive infinity). -/
def jsRoundZ (x : ℚ) : ℤ := ⌊x + 1/2⌋

/-- JavaScript `Math.round` as a number-to-number function (JS keeps the
result in the number type). -/
def jsRound (x : ℚ) : ℚ := (jsRoundZ x : ℚ)

/-- Constant from `runEcoScore.js` line 48: grams of CO2 per page view. -/
def CO2_GOAL : ℚ := 0.6

/-- Constant from line 49: desirable page load time in seconds. -/
def PAGE_LOAD_TIME_GOAL_SECONDS : ℚ := 3.4

/-- Constant from line 50: lighthouse SEO score goal. -/
def SEO_GOAL : ℚ := 85

/-- Constant from line 51: lighthouse performance score goal. -/
def PERFORMANCE_SCORE_GOAL : ℚ := 85

/-- Constant from line 53. -/
def PERFORMANCE_WEIGHT : ℚ := 0.20

/-- Constant from line 54. -/
def SEO_WEIGHT : ℚ := 0.20

/-- Constant from line 55. -/
def CO2_WEIGHT : ℚ := 0.40

/-- Constant from line 56. -/
def PAGE_LOAD_TIME_WEIGHT : ℚ := 0.20

/-- Lines 361-366 of `getEcoScore`: the CO2 sub-score.
`if (co2Emissions.co2 === 0) co2Score = CO2_WEIGHT * 100; else
co2Score = Math.min(Math.round((CO2_GOAL / co2Emissions.co2) * 100 * CO2_WEIGHT), CO2_WEIGHT * 100)`. -/
def co2Score (co2grams : ℚ) : ℚ :=
  if co2grams = 0 then CO2_WEIGHT * 100
  else min (jsRound (CO2_GOAL / co2grams * 100 * CO2_WEIGHT)) (CO2_WEIGHT * 100)

/-- Line 368: `Math.round(scores.performance * PERFORMANCE_WEIGHT)`. -/
def performanceScore (performance : ℚ) : ℚ :=
  jsRound (performance * PERFORMANCE_WEIGHT)

/-- Line 370: `Math.round(Math.min(scores.seo / SEO_GOAL, 100) * SEO_WEIGHT)`. -/
def seoScore (seo : ℚ) : ℚ :=
  jsRound (min (seo / SEO_GOAL) 100 * SEO_WEIGHT)

/-- Line 372: `isNaN(scores.pageLoadTime) ? 0 : scores.pageLoadTime`,
with `none` modelling NaN. -/
def nanToZero (t : Option ℚ) : ℚ :=
  match t with
  | none => 0
  | some x => x

/-- Lines 373-375: the raw page-load-time score.
`pageLoadTime <= PAGE_LOAD_TIME_GOAL_SECONDS ? 100 :
Math.round((PAGE_LOAD_TIME_GOAL_SECONDS / pageLoadTime) * 100)`. -/
def pageLoadTimeScore (pageLoadTime : ℚ) : ℚ :=
  if pageLoadTime ≤ PAGE_LOAD_TIME_GOAL_SECONDS then 100
  else jsRound (PAGE_LOAD_TIME_GOAL_SECONDS / pageLoadTime * 100)

/-- Line 377: `Math.round(pageLoadTimeScore * PAGE_LOAD_TIME_WEIGHT)`. -/
def weightedPageLoadTimeScore (pageLoadTime : ℚ) : ℚ :=
  jsRound (pageLoadTimeScore pageLoadTime * PAGE_LOAD_TIME_WEIGHT)

/-- Lines 379-384: the un-clamped sum of the four weighted sub-scores, in
the order the source adds them. -/
def subScoreSum (p s : ℚ) (t : Option ℚ) (e : ℚ) : ℚ :=
  performanceScore p + seoScore s + weightedPageLoadTimeScore (nanToZero t) + co2Score e

/-- Line 387: the "Eco Score" report field,
`Math.min(ecoScore, 100)`. -/
def ecoScoreValue (p s : ℚ) (t : Option ℚ) (e : ℚ) : ℚ :=
  min (subScoreSum p s t e) 100

/-- Lines 58-254: the static country display name to ISO alpha-3 code table. -/
def countryNameToCode : List (String × String) := [
  ("Afghanistan", "AFG"), ("Albania", "ALB"), ("Algeria", "DZA"),
  ("Andorra", "AND"), ("Angola", "AGO"), ("Antigua and Barbuda", "ATG"),
  ("Argentina", "ARG"), ("Armenia", "ARM"), ("Australia", "AUS"),
  ("Austria", "AUT"), ("Azerbaijan", "AZE"), ("Bahamas", "BHS"),
  ("Bahrain", "BHR"), ("Bangladesh", "BGD"), ("Barbados", "BRB"),
  ("Belarus", "BLR"), ("Belgium", "BEL"), ("Belize", "BLZ"),
  ("Benin", "BEN"), ("Bhutan", "BTN"), ("Bolivia", "BOL"),
  ("Bosnia and Herzegovina", "BIH"), ("Botswana", "BWA"), ("Brazil", "BRA"),
  ("Brunei", "BRN"), ("Bulgaria", "BGR"), ("Burkina Faso", "BFA"),
  ("Burundi", "BDI"), ("Cabo Verde", "CPV"), ("Cambodia", "KHM"),
  ("Cameroon", "CMR"), ("Canada", "CAN"), ("Central African Republic", "CAF"),
  ("Chad", "TCD"), ("Chile", "CHL"), ("China", "CHN"),
  ("Colombia", "COL"), ("Comoros", "COM"), ("Congo, Democratic Republic of the", "COD"),
  ("Congo, Republic of the", "COG"), ("Costa Rica", "CRI"), ("Croatia", "HRV"),
  ("Cuba", "CUB"), ("Cyprus", "CYP"), ("Czech Republic", "CZE"),
  ("Denmark", "DNK"), ("Djibouti", "DJI"), ("Dominica", "DMA"),
  ("Dominican Republic", "DOM"), ("Ecuador", "ECU"), ("Egypt", "EGY"),
  ("El Salvador", "SLV"), ("Equatorial Guinea", "GNQ"), ("Eritrea", "ERI"),
  ("Estonia", "EST"), ("Eswatini", "SWZ"), ("Ethiopia", "ETH"),
  ("Fiji", "FJI"), ("Finland", "FIN"), ("France", "FRA"),
  ("Gabon", "GAB"), ("Gambia", "GMB"), ("Georgia", "GEO"),
  ("Germany", "DEU"), ("Ghana", "GHA"), ("Greece", "GRC"),
  ("Grenada", "GRD"), ("Guatemala", "GTM"), ("Guinea", "GIN"),
  ("Guinea-Bissau", "GNB"), ("Guyana", "GUY"), ("Haiti", "HTI"),
  ("Honduras", "HND"), ("Hungary", "HUN"), ("Iceland", "ISL"),
  ("India", "IND"), ("Indonesia", "IDN"), ("Iran", "IRN"),
  ("Iraq", "IRQ"), ("Ireland", "IRL"), ("Israel", "ISR"),
  ("Italy", "ITA"), ("Jamaica", "JAM"), ("Japan", "JPN"),
  ("Jordan", "JOR"), ("Kazakhstan", "KAZ"), ("Kenya", "KEN"),
  ("Kiribati", "KIR"), ("Korea, North", "PRK"), ("Korea, South", "KOR"),
  ("Kuwait", "KWT"), ("Kyrgyzstan", "KGZ"), ("Laos", "LAO"),
  ("Latvia", "LVA"), ("Lebanon", "LBN"), ("Lesotho", "LSO"),
  ("Liberia", "LBR"), ("Libya", "LBY"), ("Liechtenstein", "LIE"),
  ("Lithuania", "LTU"), ("Luxembourg", "LUX"), ("Madagascar", "MDG"),
  ("Malawi", "MWI"), ("Malaysia", "MYS"), ("Maldives", "MDV"),
  ("Mali", "MLI"), ("Malta", "MLT"), ("Marshall Islands", "MHL"),
  ("Mauritania", "MRT"), ("Mauritius", "MUS"), ("Mexico", "MEX"),
  ("Micronesia", "FSM"), ("Moldova", "MDA"), ("Monaco", "MCO"),
  ("Mongolia", "MNG"), ("Montenegro", "MNE"), ("Morocco", "MAR"),
  ("Mozambique", "MOZ"), ("Myanmar (Burma)", "MMR"), ("Namibia", "NAM"),
  ("Nauru", "NRU"), ("Nepal", "NPL"), ("Netherlands", "NLD"),
  ("New Zealand", "NZL"), ("Nicaragua", "NIC"), ("Niger", "NER"),
  ("Nigeria", "NGA"), ("North Macedonia", "MKD"), ("Norway", "NOR"),
  ("Oman", "OMN"), ("Pakistan", "PAK"), ("Palau", "PLW"),
  ("Palestine", "PSE"), ("Panama", "PAN"), ("Papua New Guinea", "PNG"),
  ("Paraguay", "PRY"), ("Peru", "PER"), ("Philippines", "PHL"),
  ("Poland", "POL"), ("Portugal", "PRT"), ("Qatar", "QAT"),
  ("Romania", "ROU"), ("Russia", "RUS"), ("Rwanda", "RWA"),
  ("Saint Kitts and Nevis", "KNA"), ("Saint Lucia", "LCA"), ("Saint Vincent and the Grenadines", "VCT"),
  ("Samoa", "WSM"), ("San Marino", "SMR"), ("Sao Tome and Principe", "STP"),
  ("Saudi Arabia", "SAU"), ("Senegal", "SEN"), ("Serbia", "SRB"),
  ("Seychelles", "SYC"), ("Sierra Leone", "SLE"), ("Singapore", "SGP"),
  ("Slovakia", "SVK"), ("Slovenia", "SVN"), ("Solomon Islands", "SLB"),
  ("Somalia", "SOM"), ("South Africa", "ZAF"), ("South Sudan", "SSD"),
  ("Spain", "ESP"), ("Sri Lanka", "LKA"), ("Sudan", "SDN"),
  ("Suriname", "SUR"), ("Sweden", "SWE"), ("Switzerland", "CHE"),
  ("Syria", "SYR"), ("Taiwan", "TWN"), ("Tajikistan", "TJK"),
  ("Tanzania", "TZA"), ("Thailand", "THA"), ("Timor-Leste", "TLS"),
  ("Togo", "TGO"), ("Tonga", "TON"), ("Trinidad and Tobago", "TTO"),
  ("Tunisia", "TUN"), ("Turkey", "TUR"), ("Turkmenistan", "TKM"),
  ("Tuvalu", "TUV"), ("Uganda", "UGA"), ("Ukraine", "UKR"),
  ("United Arab Emirates", "ARE"), ("United Kingdom", "GBR"), ("United States", "USA"),
  ("Uruguay", "URY"), ("Uzbekistan", "UZB"), ("Vanuatu", "VUT"),
  ("Vatican City", "VAT"), ("Venezuela", "VEN"), ("Vietnam", "VNM"),
  ("Yemen", "YEM"), ("Zambia", "ZMB"), ("Zimbabwe", "ZWE")]

/-- The lookup `countryNameToCode[serverLocation.country]` at line 358;
`none` models the JS `undefined` for a name with no table entry. -/
def lookupCountryCode (name : String) : Option String :=
  (countryNameToCode.find? (fun p => p.1 == name)).map (fun p => p.2)

/-- The result of `getLighthouseScores` (lines 280-286), as consumed by
`getEcoScore`: performance and SEO percentages, the first-contentful-paint
time in seconds (`none` for NaN), the transfer size in KB, and the
per-resource-type breakdown. -/
structure LighthouseScores where
  performance : ℚ
  seo : ℚ
  pageLoadTime : Option ℚ
  transferSize : ℚ
  transferSizeBreakdown : List (String × ℚ)

/-- The object returned by `getServerLocation` on success (lines 324-328). -/
structure ServerLocation where
  country : String
  region : String
  city : String

/-- The report object returned by `getEcoScore` (lines 386-393), field for
field: "Eco Score", "Page Weight", "Weight Breakdown",
"Emissions per page", "Server Location", "Green Hosting". -/
structure EcoReport where
  ecoScore : ℚ
  pageWeight : ℚ
  weightBreakdown : List (String × ℚ)
  emissionsPerPage : ℚ
  serverLocation : String
  greenHosting : Bool

/-- The external per-byte CO2 model `co2Emission.perByteTrace`: it takes
the byte count, the green-hosting flag and an optional grid-intensity
country option, and yields the `co2` field (grams) of its trace result. -/
def CO2Model : Type := ℚ → Bool → Option String → ℚ

/-- Line 284 of `getLighthouseScores`:
`lhr.audits['total-byte-weight'].numericValue / 1024` (KB). -/
def transferSizeOfByteWeight (totalByteWeight : ℚ) : ℚ :=
  totalByteWeight / 1024

/-- The first argument of the `calculateCO2` call at line 359:
`pageWeight * 1000`, where `pageWeight = scores.transferSize` (KB). -/
def co2PageWeightArg (pageWeight : ℚ) : ℚ :=
  pageWeight * 1000

/-- Lines 304-315, `calculateCO2(pageWeight, countryCode, isGreenHost)`.
The source builds `optionsCalc` (a grid-intensity option holding the
country code) but then calls `perByteTrace(pageWeight, isGreenHost)`
without passing it, so the model is invoked with no grid option. -/
def calculateCO2 (perByteTrace : CO2Model) (pageWeight : ℚ)
    (countryCode : Option String) (isGreenHost : Bool) : ℚ :=
  let optionsCalc : Option String := countryCode
  perByteTrace pageWeight isGreenHost none

/-- Lines 342-394, `getEcoScore`, modelled from the point where the
external lookups have produced their values: `scores` is the audit
result, `serverLocation` the geolocation result (`none` on lookup
failure), `isGreenHost` the green-hosting flag, and `perByteTrace` the
external CO2 model. Throwing is modelled by `Except.error`. -/
def getEcoScore (perByteTrace : CO2Model) (scores : LighthouseScores)
    (serverLocation : Option ServerLocation) (isGreenHost : Bool) :
    Except String EcoReport :=
  let pageWeight := scores.transferSize
  match serverLocation with
  | none => Except.error "Could not determine server location"
  | some loc =>
    let countryCode := lookupCountryCode loc.country
    let co2Emissions :=
      calculateCO2 perByteTrace (co2PageWeightArg pageWeight) countryCode isGreenHost
    Except.ok
      ⟨ecoScoreValue scores.performance scores.seo scores.pageLoadTime co2Emissions,
       scores.transferSize, scores.transferSizeBreakdown, co2Emissions,
       loc.country, isGreenHost⟩

/-- `p.data` is an initial segment of `s.data`: the JS
`String.prototype.startsWith` check, over character lists. -/
def beginsWith : List Char → List Char → Bool
  | [], _ => true
  | _ :: _, [] => false
  | a :: ps, b :: ss => a == b && beginsWith ps ss

/-- JS `url.startsWith(p)` for a string `url` and literal `p`. -/
def jsStartsWith (s p : String) : Bool :=
  beginsWith p.data s.data

/-- Lines 335-340, `formatUrl`: prepend `http://` unless the string
already starts with `http://` or `https://`. -/
def formatUrl (url : String) : String :=
  if !jsStartsWith url "http://" && !jsStartsWith url "https://" then
    "http://" ++ url
  else url

/-- A character removed by JS `String.prototype.trim` (the whitespace the
inputs of this tool can contain). -/
def isJsSpace (c : Char) : Bool :=
  c == ' ' || c == '\t' || c == '\n' || c == '\r'

/-- JS `line.trim()`: drop whitespace from both ends. -/
def trimChars (l : List Char) : List Char :=
  ((l.dropWhile isJsSpace).reverse.dropWhile isJsSpace).reverse

/-- JS `data.split('\n')` over character lists: split at every newline,
keeping empty segments. -/
def splitOnNewline : List Char → List (List Char)
  | [] => [[]]
  | c :: cs =>
    match splitOnNewline cs with
    | [] => [[]]
    | h :: t => if c == '\n' then [] :: h :: t else (c :: h) :: t

/-- Line 401 of `processSubdomains`:
`data.split('\n').map(line => line.trim()).filter(line => line.length > 0)`. -/
def normalizeLines (data : String) : List String :=
  ((((splitOnNewline data.data).map trimChars).filter
      (fun l => decide (0 < l.length))).map (fun l => String.mk l))

/-- The per-domain pipeline as the batch runner sees it: the normalized
url goes in, and either the rendered score report or the error text comes
out. This stands for the whole `getEcoScore` call chain at line 407. -/
def PipelineRun : Type := String → Except String String

/-- The writes done for one entry of the subdomain list
(lines 404-413): the `Calculate for` header is written before the
pipeline runs, then either the score block and the dashed separator, or
the error line. `d` is the raw line; `formatUrl` is applied first
(line 404). -/
def domainBlock (run : PipelineRun) (d : String) : List String :=
  let s := formatUrl d
  match run s with
  | Except.ok rendered =>
    ["Calculate for " ++ s ++ ":\n",
     "Little Forest Eco Score >> " ++ rendered ++ " <<\n",
     "----------------------------------\n"]
  | Except.error err =>
    ["Calculate for " ++ s ++ ":\n",
     "Error calculating Eco Score for " ++ s ++ ": " ++ err ++ "\n"]

/-- The `for (let subdomain of subdomains)` loop of lines 403-414: the
writes of each iteration, in order. -/
def processList (run : PipelineRun) : List String → List String
  | [] => []
  | d :: rest => domainBlock run d ++ processList run rest

/-- Lines 396-420, `processSubdomains`: the list of lines written to the
output stream. `readResult` models `fs.readFileSync(filePath)`: on a read
error the `catch` block only logs to the console and the `finally` block
closes the stream, so nothing is written. -/
def processSubdomains (run : PipelineRun) (readResult : Except String String) :
    List String :=
  match readResult with
  | Except.error _ => []
  | Except.ok data => processList run (normalizeLines data)

/-- The `args` object produced by `parseArgs` (lines 423-435). -/
structure Args where
  urls : Option String
  scoresfile : Option String

/-- JS truthiness of a string: the empty string is falsy. -/
def jsTruthy (s : String) : Bool :=
  !(s == "")

/-- The scanning loop of `parseArgs` (lines 425-433): `--urls` and
`--scoresfile` each capture the following argument when it is present and
truthy (and then skip it); otherwise scanning continues with the next
argument. A later occurrence of a flag overwrites an earlier one. -/
def parseArgsLoop : List String → Args → Args
  | [], acc => acc
  | [_], acc => acc
  | a :: b :: rest2, acc =>
    if a == "--urls" then
      if jsTruthy b then parseArgsLoop rest2 ⟨some b, acc.scoresfile⟩
      else parseArgsLoop (b :: rest2) acc
    else if a == "--scoresfile" then
      if jsTruthy b then parseArgsLoop rest2 ⟨acc.urls, some b⟩
      else parseArgsLoop (b :: rest2) acc
    else parseArgsLoop (b :: rest2) acc

/-- Lines 423-435, `parseArgs(argv)`. -/
def parseArgs (argv : List String) : Args :=
  parseArgsLoop argv ⟨none, none⟩

/-- The top level of the script (lines 438-452): parse the arguments,
exit with status 1 and no output when either flag is missing, otherwise
run `processSubdomains` and finish with status 0. `readFile` models the
file system (`path.resolve` is absorbed into it); the returned pair is
the process exit status and the lines written to the output file. -/
def runMain (readFile : String → Except String String) (run : PipelineRun)
    (argv : List String) : Nat × List String :=
  let args := parseArgs argv
  match args.urls, args.scoresfile with
  | some u, some _ => (0, processSubdomains run (readFile u))
  | some _, none => (1, [])
  | none, _ => (1, [])

/-- A concrete per-domain pipeline used to exercise the batch runner: it
fails exactly on the second sample domain. -/
def sampleRun : PipelineRun := fun s =>
  if s == "http://b.example" then Except.error "audit failed"
  else Except.ok "report"

/-- A concrete file reader whose read always fails. -/
def failingRead : String → Except String String := fun _ =>
  Except.error "ENOENT"

/-- A rational that is the cast of an integer (JS "is an integer"). -/
def IsInt (q : ℚ) : Prop := ∃ n : ℤ, q = (n : ℚ)

theorem jsRoundZ_nonneg {x : ℚ} (h : 0 ≤ x) : 0 ≤ jsRoundZ x := by
  unfold jsRoundZ
  exact Int.le_floor.mpr (by push_cast; linarith)

theorem jsRoundZ_le {x : ℚ} {n : ℤ} (h : x ≤ (n : ℚ)) : jsRoundZ x ≤ n := by
  unfold jsRoundZ
  exact Int.lt_add_one_iff.mp (Int.floor_lt.mpr (by push_cast; linarith))

theorem jsRoundZ_le_of_lt_half {x : ℚ} {n : ℤ} (h : x < (n : ℚ) + 1/2) :
    jsRoundZ x ≤ n := by
  unfold jsRoundZ
  exact Int.lt_add_one_iff.mp (Int.floor_lt.mpr (by push_cast; linarith))

theorem le_jsRoundZ {x : ℚ} {n : ℤ} (h : (n : ℚ) - 1/2 ≤ x) : n ≤ jsRoundZ x := by
  unfold jsRoundZ
  exact Int.le_floor.mpr (by push_cast; linarith)

theorem jsRoundZ_mono {x y : ℚ} (h : x ≤ y) : jsRoundZ x ≤ jsRoundZ y :=
  Int.floor_mono (by linarith)

theorem jsRound_nonneg {x : ℚ} (h : 0 ≤ x) : 0 ≤ jsRound x := by
  unfold jsRound
  exact_mod_cast jsRoundZ_nonneg h

theorem jsRound_le {x : ℚ} {n : ℤ} (h : x ≤ (n : ℚ)) : jsRound x ≤ (n : ℚ) := by
  unfold jsRound
  exact_mod_cast jsRoundZ_le h

theorem jsRound_mono {x y : ℚ} (h : x ≤ y) : jsRound x ≤ jsRound y := by
  unfold jsRound
  exact_mod_cast jsRoundZ_mono h

theorem performanceScore_bounds {p : ℚ} (h0 : 0 ≤ p) (h1 : p ≤ 100) :
    0 ≤ performanceScore p ∧ performanceScore p ≤ 20 := by
  unfold performanceScore
  constructor
  · exact jsRound_nonneg (mul_nonneg h0 (by norm_num [PERFORMANCE_WEIGHT]))
  · have h : p * PERFORMANCE_WEIGHT ≤ ((20 : ℤ) : ℚ) := by
      push_cast
      norm_num [PERFORMANCE_WEIGHT]
      linarith
    simpa using jsRound_le h

theorem seoScore_bounds {s : ℚ} (h0 : 0 ≤ s) :
    0 ≤ seoScore s ∧ seoScore s ≤ 20 := by
  unfold seoScore
  have hmin0 : 0 ≤ min (s / SEO_GOAL) 100 :=
    le_min (div_nonneg h0 (by norm_num [SEO_GOAL])) (by norm_num)
  have hmin1 : min (s / SEO_GOAL) 100 ≤ 100 := min_le_right _ _
  constructor
  · exact jsRound_nonneg (mul_nonneg hmin0 (by norm_num [SEO_WEIGHT]))
  · have h : min (s / SEO_GOAL) 100 * SEO_WEIGHT ≤ ((20 : ℤ) : ℚ) := by
      push_cast
      norm_num [SEO_WEIGHT]
      linarith
    simpa using jsRound_le h

theorem pageLoadTimeScore_bounds {t : ℚ} (h0 : 0 ≤ t) :
    0 ≤ pageLoadTimeScore t ∧ pageLoadTimeScore t ≤ 100 := by
  unfold pageLoadTimeScore
  by_cases hc : t ≤ PAGE_LOAD_TIME_GOAL_SECONDS
  · rw [if_pos hc]
    norm_num
  · rw [if_neg hc]
    have htpos : 0 < t := by
      have : PAGE_LOAD_TIME_GOAL_SECONDS < t := lt_of_not_le hc
      have hg : (0 : ℚ) < PAGE_LOAD_TIME_GOAL_SECONDS := by
        norm_num [PAGE_LOAD_TIME_GOAL_SECONDS]
      linarith
    have harg0 : 0 ≤ PAGE_LOAD_TIME_GOAL_SECONDS / t * 100 := by
      have : 0 ≤ PAGE_LOAD_TIME_GOAL_SECONDS / t :=
        div_nonneg (by norm_num [PAGE_LOAD_TIME_GOAL_SECONDS]) (le_of_lt htpos)
      linarith
    have harg1 : PAGE_LOAD_TIME_GOAL_SECONDS / t * 100 ≤ ((100 : ℤ) : ℚ) := by
      have hdiv : PAGE_LOAD_TIME_GOAL_SECONDS / t ≤ 1 := by
        rw [div_le_one htpos]
        linarith [lt_of_not_le hc]
      push_cast
      linarith
    exact ⟨jsRound_nonneg harg0, by simpa using jsRound_le harg1⟩

theorem weightedPageLoadTimeScore_bounds {t : ℚ} (h0 : 0 ≤ t) :
    0 ≤ weightedPageLoadTimeScore t ∧ weightedPageLoadTimeScore t ≤ 20 := by
  unfold weightedPageLoadTimeScore
  obtain ⟨hr0, hr1⟩ := pageLoadTimeScore_bounds h0
  constructor
  · exact jsRound_nonneg (mul_nonneg hr0 (by norm_num [PAGE_LOAD_TIME_WEIGHT]))
  · have h : pageLoadTimeScore t * PAGE_LOAD_TIME_WEIGHT ≤ ((20 : ℤ) : ℚ) := by
      push_cast
      norm_num [PAGE_LOAD_TIME_WEIGHT]
      linarith
    simpa using jsRound_le h

theorem co2Score_bounds {e : ℚ} (h0 : 0 ≤ e) :
    0 ≤ co2Score e ∧ co2Score e ≤ 40 := by
  unfold co2Score
  by_cases hc : e = 0
  · rw [if_pos hc]
    norm_num [CO2_WEIGHT]
  · rw [if_neg hc]
    have hepos : 0 < e := lt_of_le_of_ne h0 (Ne.symm hc)
    have harg : 0 ≤ CO2_GOAL / e * 100 * CO2_WEIGHT := by
      have : 0 ≤ CO2_GOAL / e := div_nonneg (by norm_num [CO2_GOAL]) (le_of_lt hepos)
      have : 0 ≤ CO2_GOAL / e * 100 := by linarith
      nlinarith [this, show (0:ℚ) ≤ CO2_WEIGHT by norm_num [CO2_WEIGHT]]
    constructor
    · exact le_min (jsRound_nonneg harg) (by norm_num [CO2_WEIGHT])
    · calc min (jsRound (CO2_GOAL / e * 100 * CO2_WEIGHT)) (CO2_WEIGHT * 100)
          ≤ CO2_WEIGHT * 100 := min_le_right _ _
        _ = 40 := by norm_num [CO2_WEIGHT]

/-- C2. The claim says the SEO sub-score for seoPct = 1000 and for
seoPct = 85 coincide at 20. The code divides the percentage by the goal
without rescaling by 100 before rounding, so the sub-scores are 0 and 2:
the weighted SEO share can never reach its stated 20-point weight for a
percentage in [0,100], contradicting the header comment of the source
("SEO Weight: 20% of the total score"). -/
theorem c2_seo_subscore_values : seoScore 85 = 0 ∧ seoScore 1000 = 2 := by
  constructor <;>
    norm_num [seoScore, jsRound, jsRoundZ, SEO_GOAL, SEO_WEIGHT, min_def]

/-- C3, counterexample: 3.41 is strictly above the 3.4 goal, yet the
weighted page-load sub-score is still 20, because round((3.4/3.41)*100)
rounds up to 100 before the weight is applied. -/
theorem c3_counterexample :
    PAGE_LOAD_TIME_GOAL_SECONDS < 341/100 ∧
    weightedPageLoadTimeScore (341/100) = 20 := by
  constructor
  · norm_num [PAGE_LOAD_TIME_GOAL_SECONDS]
  · norm_num [weightedPageLoadTimeScore, pageLoadTimeScore, jsRound, jsRoundZ,
      PAGE_LOAD_TIME_GOAL_SECONDS, PAGE_LOAD_TIME_WEIGHT]

/-- C3, amended: because of the double rounding, the weighted page-load
sub-score equals 20 exactly for loadTimeSeconds up to 136/39 = 340/97.5
(about 3.4872, which covers every loadTimeSeconds at most 3.4), and is
strictly below 20 beyond that threshold. -/
theorem c3_amended (t u : ℚ) (ht : t ≤ 136/39) (hu : 136/39 < u) :
    weightedPageLoadTimeScore t = 20 ∧ weightedPageLoadTimeScore u < 20 := by
  constructor
  · by_cases hc : t ≤ PAGE_LOAD_TIME_GOAL_SECONDS
    · unfold weightedPageLoadTimeScore pageLoadTimeScore
      rw [if_pos hc]
      norm_num [jsRound, jsRoundZ, PAGE_LOAD_TIME_WEIGHT]
    · have htlow : PAGE_LOAD_TIME_GOAL_SECONDS < t := lt_of_not_le hc
      have htpos : 0 < t := by
        have : (0:ℚ) < PAGE_LOAD_TIME_GOAL_SECONDS := by
          norm_num [PAGE_LOAD_TIME_GOAL_SECONDS]
        linarith
      unfold weightedPageLoadTimeScore pageLoadTimeScore
      rw [if_neg hc]
      have harglo : (195/2 : ℚ) ≤ PAGE_LOAD_TIME_GOAL_SECONDS / t * 100 := by
        rw [div_mul_eq_mul_div, le_div_iff htpos]
        norm_num [PAGE_LOAD_TIME_GOAL_SECONDS]
        linarith
      have harghi : PAGE_LOAD_TIME_GOAL_SECONDS / t * 100 < 100 := by
        rw [div_mul_eq_mul_div, div_lt_iff htpos]
        norm_num [PAGE_LOAD_TIME_GOAL_SECONDS] at htlow ⊢
        linarith
      have hn1 : (98 : ℤ) ≤ jsRoundZ (PAGE_LOAD_TIME_GOAL_SECONDS / t * 100) :=
        le_jsRoundZ (by push_cast; linarith)
      have hn2 : jsRoundZ (PAGE_LOAD_TIME_GOAL_SECONDS / t * 100) ≤ 100 :=
        jsRoundZ_le_of_lt_half (by push_cast; linarith)
      set n := jsRoundZ (PAGE_LOAD_TIME_GOAL_SECONDS / t * 100) with hn
      have hc1 : ((98 : ℤ) : ℚ) ≤ (n : ℚ) := by exact_mod_cast hn1
      have hc2 : ((n : ℤ) : ℚ) ≤ ((100 : ℤ) : ℚ) := by exact_mod_cast hn2
      show jsRound ((jsRound (PAGE_LOAD_TIME_GOAL_SECONDS / t * 100)) *
        PAGE_LOAD_TIME_WEIGHT) = 20
      unfold jsRound
      rw [← hn]
      have : jsRoundZ ((n : ℚ) * PAGE_LOAD_TIME_WEIGHT) = 20 := by
        unfold jsRoundZ
        rw [Int.floor_eq_iff]
        constructor
        · push_cast
          norm_num [PAGE_LOAD_TIME_WEIGHT]
          push_cast at hc1
          linarith
        · push_cast
          norm_num [PAGE_LOAD_TIME_WEIGHT]
          push_cast at hc2
          linarith
      rw [this]
      norm_num
  · have hulow : PAGE_LOAD_TIME_GOAL_SECONDS < u := by
      have : PAGE_LOAD_TIME_GOAL_SECONDS < 136/39 := by
        norm_num [PAGE_LOAD_TIME_GOAL_SECONDS]
      linarith
    have hupos : 0 < u := by
      have : (0:ℚ) < PAGE_LOAD_TIME_GOAL_SECONDS := by
        norm_num [PAGE_LOAD_TIME_GOAL_SECONDS]
      linarith
    unfold weightedPageLoadTimeScore pageLoadTimeScore
    rw [if_neg (not_le.mpr hulow)]
    have harghi : PAGE_LOAD_TIME_GOAL_SECONDS / u * 100 < 195/2 := by
      rw [div_mul_eq_mul_div, div_lt_iff hupos]
      norm_num [PAGE_LOAD_TIME_GOAL_SECONDS]
      linarith
    have hn2 : jsRoundZ (PAGE_LOAD_TIME_GOAL_SECONDS / u * 100) ≤ 97 :=
      jsRoundZ_le_of_lt_half (by push_cast; linarith)
    set n := jsRoundZ (PAGE_LOAD_TIME_GOAL_SECONDS / u * 100) with hn
    have hc2 : ((n : ℤ) : ℚ) ≤ ((97 : ℤ) : ℚ) := by exact_mod_cast hn2
    show jsRound ((jsRound (PAGE_LOAD_TIME_GOAL_SECONDS / u * 100)) *
      PAGE_LOAD_TIME_WEIGHT) < 20
    unfold jsRound
    rw [← hn]
    have hle : jsRoundZ ((n : ℚ) * PAGE_LOAD_TIME_WEIGHT) ≤ 19 := by
      apply jsRoundZ_le_of_lt_half
      push_cast
      norm_num [PAGE_LOAD_TIME_WEIGHT]
      push_cast at hc2
      linarith
    have : ((jsRoundZ ((n : ℚ) * PAGE_LOAD_TIME_WEIGHT) : ℤ) : ℚ) ≤ ((19:ℤ):ℚ) := by
      exact_mod_cast hle
    push_cast at this
    linarith

/-- C3, witness for the amended statement at 3.4 and 3.5 seconds. -/
theorem c3_amended_witness :
    (17/5 : ℚ) ≤ 136/39 ∧ (136/39 : ℚ) < 7/2 ∧
    weightedPageLoadTimeScore (17/5) = 20 ∧
    weightedPageLoadTimeScore (7/2) < 20 := by
  obtain ⟨h1, h2⟩ := c3_amended (17/5) (7/2) (by norm_num) (by norm_num)
  exact ⟨by norm_num, by norm_num, h1, h2⟩

/-- C4. The estimate handed to the aggregator never depends on the
resolved country code: `calculateCO2` constructs the grid-intensity
options from the country code and then calls the external model without
them, so for every external model and every page weight and hosting flag,
any two country codes (present, absent, or different) give the same
estimate. -/
theorem c4_co2_country_independent (m : CO2Model) (w : ℚ) (g : Bool)
    (cc1 cc2 : Option String) :
    calculateCO2 m w cc1 g = calculateCO2 m w cc2 g := rfl

/-- C5, counterexample: a raw total-byte-weight of 1024 bytes reaches the
CO2 model as (1024 / 1024) * 1000 = 1000 bytes, not 1024. -/
theorem c5_counterexample :
    co2PageWeightArg (transferSizeOfByteWeight 1024) = 1000 ∧
    co2PageWeightArg (transferSizeOfByteWeight 1024) ≠ 1024 := by
  norm_num [co2PageWeightArg, transferSizeOfByteWeight]

/-- C5, amended: the pipeline divides the raw total-byte-weight by 1024
at line 284 and multiplies by 1000 at line 359, so the CO2 model receives
B * 125/128 bytes, which differs from B for every nonzero B. -/
theorem c5_amended (B : ℚ) (hB : B ≠ 0) :
    co2PageWeightArg (transferSizeOfByteWeight B) = B * (125/128) ∧
    co2PageWeightArg (transferSizeOfByteWeight B) ≠ B := by
  unfold co2PageWeightArg transferSizeOfByteWeight
  constructor
  · ring
  · intro h
    apply hB
    linarith

/-- C5, witness for the amended statement at B = 1024 bytes. -/
theorem c5_amended_witness :
    (1024 : ℚ) ≠ 0 ∧
    co2PageWeightArg (transferSizeOfByteWeight 1024) = 1024 * (125/128) ∧
    co2PageWeightArg (transferSizeOfByteWeight 1024) ≠ 1024 := by
  obtain ⟨h1, h2⟩ := c5_amended 1024 (by norm_num)
  exact ⟨by norm_num, h1, h2⟩

/-- C8. The CO2 sub-score is monotonically non-increasing in the
emissions value: for 0 < a ≤ b (all other aggregator inputs being
separate arguments, hence fixed), the sub-score at b is at most the
sub-score at a. -/
theorem c8_co2_subscore_antitone (a b : ℚ) (ha : 0 < a) (hab : a ≤ b) :
    co2Score b ≤ co2Score a := by
  have hb : 0 < b := lt_of_lt_of_le ha hab
  unfold co2Score
  rw [if_neg (ne_of_gt hb), if_neg (ne_of_gt ha)]
  refine min_le_min (jsRound_mono ?_) le_rfl
  have h1 : CO2_GOAL / b ≤ CO2_GOAL / a := by
    rw [div_le_div_iff hb ha]
    have hg : (0:ℚ) < CO2_GOAL := by norm_num [CO2_GOAL]
    nlinarith
  have h2 : CO2_GOAL / b * 100 ≤ CO2_GOAL / a * 100 := by linarith
  have hw : (0:ℚ) ≤ CO2_WEIGHT := by norm_num [CO2_WEIGHT]
  exact mul_le_mul_of_nonneg_right h2 hw

/-- C8, witness at emissions 1 g and 2 g. -/
theorem c8_witness :
    (0:ℚ) < 1 ∧ (1:ℚ) ≤ 2 ∧ co2Score 2 ≤ co2Score 1 :=
  ⟨by norm_num, by norm_num, c8_co2_subscore_antitone 1 2 (by norm_num) (by norm_num)⟩

theorem isInt_min {a b : ℚ} (ha : IsInt a) (hb : IsInt b) : IsInt (min a b) := by
  obtain ⟨m, rfl⟩ := ha
  obtain ⟨n, rfl⟩ := hb
  exact ⟨min m n, by push_cast; rfl⟩

theorem isInt_add {a b : ℚ} (ha : IsInt a) (hb : IsInt b) : IsInt (a + b) := by
  obtain ⟨m, rfl⟩ := ha
  obtain ⟨n, rfl⟩ := hb
  exact ⟨m + n, by push_cast; rfl⟩

theorem isInt_performanceScore (p : ℚ) : IsInt (performanceScore p) :=
  ⟨jsRoundZ (p * PERFORMANCE_WEIGHT), rfl⟩

theorem isInt_seoScore (s : ℚ) : IsInt (seoScore s) :=
  ⟨jsRoundZ (min (s / SEO_GOAL) 100 * SEO_WEIGHT), rfl⟩

theorem isInt_weightedPageLoadTimeScore (t : ℚ) :
    IsInt (weightedPageLoadTimeScore t) :=
  ⟨jsRoundZ (pageLoadTimeScore t * PAGE_LOAD_TIME_WEIGHT), rfl⟩

theorem isInt_co2Score (e : ℚ) : IsInt (co2Score e) := by
  unfold co2Score
  split
  · exact ⟨40, by norm_num [CO2_WEIGHT]⟩
  · refine isInt_min ⟨_, rfl⟩ ⟨40, by norm_num [CO2_WEIGHT]⟩

/-- C1. Under the data-model preconditions, the "Eco Score" value is an
integer between 0 and 100; whenever the four weighted sub-scores sum to
100 or more, the clamp makes the value exactly 100 (for any inputs at
all); and the ecoScore field of every report returned by `getEcoScore`
is exactly this aggregated value. -/
theorem c1_eco_score_bounded (p s e : ℚ) (t : Option ℚ)
    (hp0 : 0 ≤ p) (hp1 : p ≤ 100) (hs0 : 0 ≤ s) (hs1 : s ≤ 100)
    (ht : ∀ x, t = some x → 0 ≤ x) (he : 0 ≤ e) :
    (∃ n : ℤ, ecoScoreValue p s t e = (n : ℚ) ∧ 0 ≤ n ∧ n ≤ 100) ∧
    (∀ (p2 s2 e2 : ℚ) (t2 : Option ℚ), 100 ≤ subScoreSum p2 s2 t2 e2 →
      ecoScoreValue p2 s2 t2 e2 = 100) ∧
    (∀ (m : CO2Model) (sc : LighthouseScores) (loc : ServerLocation)
      (g : Bool) (r : EcoReport),
      getEcoScore m sc (some loc) g = Except.ok r →
      r.ecoScore = ecoScoreValue sc.performance sc.seo sc.pageLoadTime
        (calculateCO2 m (co2PageWeightArg sc.transferSize)
          (lookupCountryCode loc.country) g)) := by
  refine ⟨?_, ?_, ?_⟩
  · have ht0 : 0 ≤ nanToZero t := by
      cases t with
      | none => simp [nanToZero]
      | some x => exact ht x rfl
    obtain ⟨ha0, ha1⟩ := performanceScore_bounds hp0 hp1
    obtain ⟨hb0, hb1⟩ := seoScore_bounds hs0
    obtain ⟨hc0, hc1⟩ := weightedPageLoadTimeScore_bounds ht0
    obtain ⟨hd0, hd1⟩ := co2Score_bounds he
    have hsum0 : 0 ≤ subScoreSum p s t e := by
      unfold subScoreSum
      linarith
    have hsum1 : subScoreSum p s t e ≤ 100 := by
      unfold subScoreSum
      linarith
    have hval : ecoScoreValue p s t e = subScoreSum p s t e := by
      unfold ecoScoreValue
      exact min_eq_left hsum1
    have hint : IsInt (subScoreSum p s t e) := by
      unfold subScoreSum
      exact isInt_add (isInt_add (isInt_add (isInt_performanceScore p)
        (isInt_seoScore s)) (isInt_weightedPageLoadTimeScore (nanToZero t)))
        (isInt_co2Score e)
    obtain ⟨n, hn⟩ := hint
    refine ⟨n, hval.trans hn, ?_, ?_⟩
    · rw [hn] at hsum0
      exact_mod_cast hsum0
    · rw [hn] at hsum1
      exact_mod_cast hsum1
  · intro p2 s2 e2 t2 h
    unfold ecoScoreValue
    exact min_eq_right h
  · intro m sc loc g r h
    simp only [getEcoScore] at h
    injection h with h2
    rw [← h2]

/-- C1, witness: performance 80, SEO 90, load time 2 s, emissions 0.5 g
satisfy every precondition, and the theorem yields the bounded integer
score there. -/
theorem c1_witness :
    ((0:ℚ) ≤ 80 ∧ (80:ℚ) ≤ 100 ∧ (0:ℚ) ≤ 90 ∧ (90:ℚ) ≤ 100 ∧
      (∀ x : ℚ, some (2:ℚ) = some x → 0 ≤ x) ∧ (0:ℚ) ≤ 1/2) ∧
    (∃ n : ℤ, ecoScoreValue 80 90 (some 2) (1/2) = (n : ℚ) ∧ 0 ≤ n ∧ n ≤ 100) := by
  have hsome : ∀ x : ℚ, some (2:ℚ) = some x → 0 ≤ x := by
    intro x hx
    injection hx with h
    rw [← h]
    norm_num
  refine ⟨⟨by norm_num, by norm_num, by norm_num, by norm_num, hsome, by norm_num⟩, ?_⟩
  exact (c1_eco_score_bounded 80 90 (1/2) (some 2) (by norm_num) (by norm_num)
    (by norm_num) (by norm_num) hsome (by norm_num)).1

theorem processList_append (run : PipelineRun) (l1 l2 : List String) :
    processList run (l1 ++ l2) = processList run l1 ++ processList run l2 := by
  induction l1 with
  | nil => simp [processList]
  | cons d rest ih => simp [processList, ih]

/-- C6. If the normalized input lines are `pre ++ d :: post` and the
pipeline fails on `d`, the batch runner writes the blocks for `pre`, then
the header and error line naming `d`, then the blocks for `post`: the
failing domain contributes exactly one block and the remaining domains
are still processed, in input order. -/
theorem c6_batch_isolation (run : PipelineRun) (data : String)
    (pre post : List String) (d e : String)
    (hsplit : normalizeLines data = pre ++ d :: post)
    (hfail : run (formatUrl d) = Except.error e) :
    processSubdomains run (Except.ok data) =
      processList run pre ++
        ("Calculate for " ++ formatUrl d ++ ":\n") ::
        ("Error calculating Eco Score for " ++ formatUrl d ++ ": " ++ e ++ "\n") ::
        processList run post := by
  show processList run (normalizeLines data) = _
  rw [hsplit, processList_append]
  congr 1
  show domainBlock run d ++ processList run post = _
  simp [domainBlock, hfail]

/-- C6, witness: three domains where exactly the second fails produce the
isolated error block between the two score blocks. -/
theorem c6_witness :
    normalizeLines "a.example\nb.example\nc.example" =
      ["a.example"] ++ "b.example" :: ["c.example"] ∧
    sampleRun (formatUrl "b.example") = Except.error "audit failed" ∧
    processSubdomains sampleRun (Except.ok "a.example\nb.example\nc.example") =
      processList sampleRun ["a.example"] ++
        ("Calculate for " ++ formatUrl "b.example" ++ ":\n") ::
        ("Error calculating Eco Score for " ++ formatUrl "b.example" ++ ": " ++
          "audit failed" ++ "\n") ::
        processList sampleRun ["c.example"] := by
  refine ⟨rfl, rfl, ?_⟩
  exact c6_batch_isolation sampleRun "a.example\nb.example\nc.example"
    ["a.example"] ["c.example"] "b.example" "audit failed" rfl rfl

/-- C7, counterexample: with both CLI flags present but an unreadable
input file, the program finishes with exit status 0 (the read error is
only logged), not with a non-zero status as claimed; no domain block is
written. -/
theorem c7_counterexample :
    runMain failingRead sampleRun
      ["--urls", "urls.txt", "--scoresfile", "scores.txt"] = (0, []) := rfl

/-- C7, amended: when the input file cannot be read, no domain is
processed and nothing is appended to the output, but the error is only
logged and the process still exits with status 0; only missing CLI flags
produce the non-zero exit. -/
theorem c7_amended (readFile : String → Except String String)
    (run : PipelineRun) (argv : List String) (u o msg : String)
    (hargs : parseArgs argv = ⟨some u, some o⟩)
    (hread : readFile u = Except.error msg) :
    runMain readFile run argv = (0, []) := by
  simp [runMain, hargs, processSubdomains, hread]

/-- C7, witness for the amended statement at a concrete argv and a
failing reader. -/
theorem c7_amended_witness :
    parseArgs ["--urls", "urls.txt", "--scoresfile", "scores.txt"] =
      ⟨some "urls.txt", some "scores.txt"⟩ ∧
    failingRead "urls.txt" = Except.error "ENOENT" ∧
    runMain failingRead sampleRun
      ["--urls", "urls.txt", "--scoresfile", "scores.txt"] = (0, []) := by
  refine ⟨rfl, rfl, ?_⟩
  exact c7_amended failingRead sampleRun
    ["--urls", "urls.txt", "--scoresfile", "scores.txt"]
    "urls.txt" "scores.txt" "ENOENT" rfl rfl

/-- C9. `getEcoScore` fails exactly when the server location is absent:
the result is an error precisely for `none` (with the
location-unavailable message), and a report is produced for every
present location. -/
theorem c9_location_error_iff_absent (m : CO2Model) (sc : LighthouseScores)
    (g : Bool) (loc : Option ServerLocation) :
    ((∃ msg, getEcoScore m sc loc g = Except.error msg) ↔ loc = none) ∧
    getEcoScore m sc none g =
      Except.error "Could not determine server location" := by
  constructor
  · cases loc with
    | none => simp [getEcoScore]
    | some l => simp [getEcoScore]
  · rfl

theorem stringDataAppend (a b : String) : (a ++ b).data = a.data ++ b.data := by
  cases a
  cases b
  rfl

theorem beginsWith_self_append (p s : List Char) :
    beginsWith p (p ++ s) = true := by
  induction p with
  | nil => rfl
  | cons c ps ih => simp [beginsWith, ih]

/-- C10. `formatUrl` tests only the two literal schemes: any input
starting with neither gets `http://` prepended verbatim (so an input with
another scheme such as ftp becomes a double-scheme string), and the
normalizer is idempotent on its own output. -/
theorem c10_format_url (u : String)
    (h1 : jsStartsWith u "http://" = false)
    (h2 : jsStartsWith u "https://" = false) :
    formatUrl u = "http://" ++ u ∧
    ∀ v, formatUrl (formatUrl v) = formatUrl v := by
  constructor
  · unfold formatUrl
    rw [h1, h2]
    rfl
  · intro v
    by_cases hv : (!jsStartsWith v "http://" && !jsStartsWith v "https://") = true
    · have hfv : formatUrl v = "http://" ++ v := by
        unfold formatUrl
        rw [if_pos hv]
      rw [hfv]
      have hpre : jsStartsWith ("http://" ++ v) "http://" = true := by
        unfold jsStartsWith
        rw [stringDataAppend]
        exact beginsWith_self_append _ _
      unfold formatUrl
      rw [hpre]
      simp
    · have hfv : formatUrl v = v := by
        unfold formatUrl
        rw [if_neg hv]
      rw [hfv]
      exact hfv

/-- C10, witness: an ftp url gets the double scheme, and idempotence
holds for every string. -/
theorem c10_witness :
    jsStartsWith "ftp://example.com" "http://" = false ∧
    jsStartsWith "ftp://example.com" "https://" = false ∧
    formatUrl "ftp://example.com" = "http://ftp://example.com" ∧
    ∀ v, formatUrl (formatUrl v) = formatUrl v := by
  obtain ⟨h3, h4⟩ := c10_format_url "ftp://example.com" rfl rfl
  exact ⟨rfl, rfl, h3.trans rfl, h4⟩
